import Mathlib

/-!
Shallow embedding of the SDS-011 protocol driver (`src/sds011_lib.cpp`,
class `SDS011`) for verification of the specification in `spec.md`.

Modelling conventions:
* C `uint8_t` / `int` values are modelled as `ℕ`; 8-bit wraparound is made
  explicit with `% 256` exactly where the C type forces a truncation
  (the checksum accumulator).
* The global mutable variables of the library (`SDS011_Packet`,
  `_PendingConfReq`, `_dev_id`, `_RelativeHumidity`, `_fd`, `data`)
  are collected in an explicit state record `SDSState` that every
  operation threads through.
* The serial transport is an oracle `World`: `reads k` is the outcome of
  the k-th `read()` call (`none` = short/failed read, `some buf` = a full
  10-byte read delivering `buf`), `writeOk k` tells whether the k-th
  `write()` call transfers all 19 bytes.  Operations carry a read index
  and a write index into the oracle, and record every packet handed to
  `write()` in a trace.
* The C `float` fields `data.pm25` / `data.pm10` are represented by the
  raw 16-bit integers decoded from the frame (`pm25raw`, `pm10raw`);
  their real-number value, including the humidity correction performed
  with `pow`, is given by the relation `pm25Corrected` below (real
  arithmetic stands in for IEEE `float`/`double`).
* Debug `printf` output and `usleep` delays have no effect on the
  protocol state and are omitted.
-/

namespace SDS011

/-! ### Constants from `sds011_lib.h` -/

def SDS011_MODE   : ℕ := 0x02
def SDS011_QDATA  : ℕ := 0x04
def SDS011_DEVID  : ℕ := 0x05
def SDS011_SLEEP  : ℕ := 0x06
def SDS011_FWVER  : ℕ := 0x07
def SDS011_PERIOD : ℕ := 0x08

def SDS011_BYTE_BEGIN : ℕ := 0xAA
def SDS011_BYTE_END   : ℕ := 0xAB
def SDS011_BYTE_CMD   : ℕ := 0xB4
def SDS011_SENDPACKET_LEN : ℕ := 19

def SDS011_DATA : ℕ := 0xC0
def SDS011_CONF : ℕ := 0xC5
def SDS011_PACKET_LEN : ℕ := 10

def SDS011_OK    : ℕ := 0x00
def SDS011_ERROR : ℕ := 0xFF

def REPORT_STREAM : ℕ := 0x00
def REPORT_QUERY  : ℕ := 0x01

/-! ### State -/

/-- The global `sds011_response_t data` struct.  The `float` members
`pm25`/`pm10` are kept as the raw decoded 16-bit integers; see
`pm25Corrected` for their real value. -/
structure RespData where
  cmd_id  : ℕ
  confcmd : ℕ
  type    : ℕ
  mode    : ℕ
  value   : ℕ
  devid   : ℕ
  year    : ℕ
  month   : ℕ
  day     : ℕ
  pm25raw : ℕ
  pm10raw : ℕ
  deriving DecidableEq, Repr

/-- The library's global mutable state: the outgoing packet buffer
`SDS011_Packet`, `_PendingConfReq`, `_dev_id[0..1]`, `_RelativeHumidity`
(as an exact rational), `_fd` and the parsed-response struct `data`. -/
structure SDSState where
  packet   : List ℕ
  pending  : Bool
  dev_id0  : ℕ
  dev_id1  : ℕ
  humidity : ℚ
  fd       : ℕ
  data     : RespData
  deriving DecidableEq, Repr

/-- Transport oracle: outcomes of successive `read()` and `write()`
system calls. -/
structure World where
  reads   : ℕ → Option (List ℕ)
  writeOk : ℕ → Bool

/-- Result of an effectful library call: returned status, state after the
call, next read/write oracle indices, and the packets handed to
`write()` during the call. -/
structure RunResult where
  status : ℕ
  state  : SDSState
  rIdx   : ℕ
  wIdx   : ℕ
  writes : List (List ℕ)
  deriving DecidableEq, Repr

/-- Initial global state: zero-initialised packet buffer and `data`,
`_PendingConfReq = false`, `_dev_id = {0xff,0xff}`,
`_RelativeHumidity = 0`, and `_fd = 0xff` from the constructor. -/
def initState : SDSState :=
  { packet := List.replicate 19 0
    pending := false
    dev_id0 := 0xff
    dev_id1 := 0xff
    humidity := 0
    fd := 0xff
    data := ⟨0, 0, 0, 0, 0, 0, 0, 0, 0, 0, 0⟩ }

/-! ### Packet codec -/

/-- `Calc_Checksum(packet, length)`: byte-wise sum in a `uint8_t`
accumulator, i.e. addition with 8-bit wraparound at every step. -/
def Calc_Checksum (packet : List ℕ) : ℕ :=
  packet.foldl (fun checksum b => (checksum + b) % 256) 0

/-- `ProcessResponse(packet, length)`: validates length, header, trailer
and checksum (over bytes 2..7, `Calc_Checksum(packet+2, 6)`), then fills
the `data` struct and, for a configuration response with a recognised
sub-command, clears `_PendingConfReq`. -/
def ProcessResponse (s : SDSState) (packet : List ℕ) (length : ℕ) :
    ℕ × SDSState :=
  if length ≠ SDS011_PACKET_LEN ∨ packet.getD 0 0 ≠ SDS011_BYTE_BEGIN ∨
      packet.getD (length - 1) 0 ≠ SDS011_BYTE_END then
    (SDS011_ERROR, s)
  else if packet.getD 8 0 ≠ Calc_Checksum ((packet.drop 2).take 6) then
    (SDS011_ERROR, s)
  else
    -- data.devid = (packet[7] << 8) + packet[6];  data.cmd_id = packet[1]
    let s1 := { s with data := { s.data with
                  devid := packet.getD 7 0 * 256 + packet.getD 6 0
                  cmd_id := packet.getD 1 0 } }
    if packet.getD 1 0 = SDS011_DATA then
      (SDS011_OK, { s1 with data := { s1.data with
          pm25raw := packet.getD 3 0 * 256 + packet.getD 2 0
          pm10raw := packet.getD 5 0 * 256 + packet.getD 4 0 } })
    else if packet.getD 1 0 = SDS011_CONF then
      let s2 := { s1 with data := { s1.data with confcmd := packet.getD 2 0 } }
      if packet.getD 2 0 = SDS011_SLEEP ∨ packet.getD 2 0 = SDS011_MODE ∨
          packet.getD 2 0 = SDS011_PERIOD then
        -- cases SLEEP/MODE/PERIOD fall through to the DEVID break
        (SDS011_OK, { s2 with pending := false
                              data := { s2.data with type := packet.getD 3 0
                                                     mode := packet.getD 4 0 } })
      else if packet.getD 2 0 = SDS011_DEVID then
        (SDS011_OK, { s2 with pending := false })
      else if packet.getD 2 0 = SDS011_FWVER then
        (SDS011_OK, { s2 with pending := false
                              data := { s2.data with year := packet.getD 3 0
                                                     month := packet.getD 4 0
                                                     day := packet.getD 5 0 } })
      else
        (SDS011_ERROR, s2)
    else
      (SDS011_ERROR, s1)

/-! ### Reading and the correlator -/

/-- The retry loop of `read_sds`: up to `n` (= 5) `read()` calls; stops at
the first one that delivers a full 10-byte packet, returning the packet
and the next read index. -/
def readAttempt (w : World) (rIdx : ℕ) : ℕ → Option (List ℕ × ℕ)
  | 0 => none
  | n + 1 =>
    match w.reads rIdx with
    | some buf => some (buf, rIdx + 1)
    | none => readAttempt w (rIdx + 1) n

/-- `read_sds()`: fails fast on the not-connected sentinel `_fd == 0xff`;
otherwise tries up to 5 `read()` calls, parses the received packet with
`ProcessResponse`, and on a successful parse caches the device id
(`_dev_id[0] = devid & 0xff`, `_dev_id[1] = (devid >> 8) & 0xff`). -/
def read_sds (w : World) (s : SDSState) (rIdx : ℕ) : ℕ × SDSState × ℕ :=
  if s.fd = 0xff then (SDS011_ERROR, s, rIdx)
  else
    match readAttempt w rIdx 5 with
    | none => (SDS011_ERROR, s, rIdx + 5)
    | some (buf, r1) =>
      let pr := ProcessResponse s buf SDS011_PACKET_LEN
      if pr.1 = SDS011_ERROR then (SDS011_ERROR, pr.2, r1)
      else
        (SDS011_OK,
         { pr.2 with dev_id0 := pr.2.data.devid % 256
                     dev_id1 := pr.2.data.devid / 256 % 256 }, r1)

/-- The loop body of `Wait_For_answer`, recursion on the remaining
iteration budget.  The C loop is
`int i = 0; while (_PendingConfReq) { if (i++ > 20) return ERROR; read_sds(); }`,
which admits iterations for `i = 0..20`; `fuel` here is `21 - i`.  The
last component counts the `read_sds` calls performed. -/
def waitAux (w : World) (fuel : ℕ) (s : SDSState) (rIdx : ℕ) :
    ℕ × SDSState × ℕ × ℕ :=
  if s.pending = false then (SDS011_OK, s, rIdx, 0)
  else
    match fuel with
    | 0 => (SDS011_ERROR, s, rIdx, 0)
    | fuel + 1 =>
      let rr := read_sds w s rIdx
      let res := waitAux w fuel rr.2.1 rr.2.2
      (res.1, res.2.1, res.2.2.1, res.2.2.2 + 1)

/-- `Wait_For_answer()`: drains the link while `_PendingConfReq` is set,
with the loop-counter bound `i++ > 20`. -/
def Wait_For_answer (w : World) (s : SDSState) (rIdx : ℕ) :
    ℕ × SDSState × ℕ × ℕ :=
  waitAux w 21 s rIdx

/-! ### Sending -/

/-- `prepare_packet(data1)`: zero-fills the 19-byte buffer, then sets
header, command marker, command id, trailer and the cached device id
(bytes 15/16). -/
def prepare_packet (s : SDSState) (data1 : ℕ) : SDSState :=
  { s with packet :=
      [SDS011_BYTE_BEGIN, SDS011_BYTE_CMD, data1,
       0, 0, 0, 0, 0, 0, 0, 0, 0, 0, 0, 0,
       s.dev_id0, s.dev_id1, 0, SDS011_BYTE_END] }

/-- The checksum stamping done inside `send_sds`:
`SDS011_Packet[17] = Calc_Checksum(SDS011_Packet+2, 15)`. -/
def stampChecksum (l : List ℕ) : List ℕ :=
  l.set 17 (Calc_Checksum ((l.drop 2).take 15))

/-- `send_sds()`: fails fast when not connected; first drains any pending
configuration answer with `Wait_For_answer` (returning `SDS011_ERROR`
without touching the transport if that times out); stamps the checksum;
writes the packet; then sets `_PendingConfReq` under the condition
`SDS011_Packet[2] != SDS011_QDATA || SDS011_Packet[2] != SDS011_SLEEP`
exactly as written in the source (the disjunction of the two
inequalities is always true). -/
def send_sds (w : World) (s : SDSState) (rIdx wIdx : ℕ) : RunResult :=
  if s.fd = 0xff then ⟨SDS011_ERROR, s, rIdx, wIdx, []⟩
  else
    let wa := Wait_For_answer w s rIdx
    if wa.1 = SDS011_ERROR then ⟨SDS011_ERROR, wa.2.1, wa.2.2.1, wIdx, []⟩
    else
      let s1 := { wa.2.1 with packet := stampChecksum wa.2.1.packet }
      if w.writeOk wIdx = false then
        ⟨SDS011_ERROR, s1, wa.2.2.1, wIdx + 1, [s1.packet]⟩
      else
        let s2 :=
          if s1.packet.getD 2 0 ≠ SDS011_QDATA ∨
              s1.packet.getD 2 0 ≠ SDS011_SLEEP then
            { s1 with pending := true }
          else s1
        ⟨SDS011_OK, s2, wa.2.2.1, wIdx + 1, [s1.packet]⟩

/-! ### Command façade -/

/-- `Get_Param(c, p)`: prepare a query packet for `c`, send it, wait for
the configuration answer, and return `data.mode` through `*p`. -/
def Get_Param (w : World) (s : SDSState) (rIdx wIdx c : ℕ) :
    RunResult × Option ℕ :=
  let s0 := prepare_packet s c
  let sr := send_sds w s0 rIdx wIdx
  if sr.status = SDS011_ERROR then (sr, none)
  else
    let wa := Wait_For_answer w sr.state sr.rIdx
    if wa.1 = SDS011_ERROR then
      (⟨SDS011_ERROR, wa.2.1, wa.2.2.1, sr.wIdx, sr.writes⟩, none)
    else
      (⟨SDS011_OK, wa.2.1, wa.2.2.1, sr.wIdx, sr.writes⟩,
       some wa.2.1.data.mode)

/-- `Set_Param(mode, p)`: validates the working-period range (`p > 30` is
rejected; the `p < 0` half of the C test is vacuous for `uint8_t`),
prepares the packet, sets bytes 3/4 to `1`/`p`, sends and waits. -/
def Set_Param (w : World) (s : SDSState) (rIdx wIdx mode p : ℕ) : RunResult :=
  if mode = SDS011_PERIOD ∧ p > 30 then ⟨SDS011_ERROR, s, rIdx, wIdx, []⟩
  else
    let s0 := prepare_packet s mode
    let s1 := { s0 with packet := (s0.packet.set 3 1).set 4 p }
    let sr := send_sds w s1 rIdx wIdx
    if sr.status = SDS011_ERROR then sr
    else
      let wa := Wait_For_answer w sr.state sr.rIdx
      ⟨wa.1, wa.2.1, wa.2.2.1, sr.wIdx, sr.writes⟩

/-- `Report_Data(rmode, PM25, PM10)`: in `REPORT_QUERY` mode first sends a
`SDS011_QDATA` packet; then reads one frame and returns the decoded
(raw) PM fields. -/
def Report_Data (w : World) (s : SDSState) (rIdx wIdx rmode : ℕ) :
    RunResult × Option (ℕ × ℕ) :=
  if rmode = REPORT_QUERY then
    let s0 := prepare_packet s SDS011_QDATA
    let sr := send_sds w s0 rIdx wIdx
    if sr.status = SDS011_ERROR then (sr, none)
    else
      let rd := read_sds w sr.state sr.rIdx
      if rd.1 = SDS011_ERROR then
        (⟨SDS011_ERROR, rd.2.1, rd.2.2, sr.wIdx, sr.writes⟩, none)
      else
        (⟨SDS011_OK, rd.2.1, rd.2.2, sr.wIdx, sr.writes⟩,
         some (rd.2.1.data.pm25raw, rd.2.1.data.pm10raw))
  else
    let rd := read_sds w s rIdx
    if rd.1 = SDS011_ERROR then
      (⟨SDS011_ERROR, rd.2.1, rd.2.2, wIdx, []⟩, none)
    else
      (⟨SDS011_OK, rd.2.1, rd.2.2, wIdx, []⟩,
       some (rd.2.1.data.pm25raw, rd.2.1.data.pm10raw))

/-- `Get_Firmware_Version(fwdata)`: sends a `SDS011_FWVER` query, waits,
and returns `(year, month, day)`. -/
def Get_Firmware_Version (w : World) (s : SDSState) (rIdx wIdx : ℕ) :
    RunResult × Option (ℕ × ℕ × ℕ) :=
  let s0 := prepare_packet s SDS011_FWVER
  let sr := send_sds w s0 rIdx wIdx
  if sr.status = SDS011_ERROR then (sr, none)
  else
    let wa := Wait_For_answer w sr.state sr.rIdx
    if wa.1 = SDS011_ERROR then
      (⟨SDS011_ERROR, wa.2.1, wa.2.2.1, sr.wIdx, sr.writes⟩, none)
    else
      (⟨SDS011_OK, wa.2.1, wa.2.2.1, sr.wIdx, sr.writes⟩,
       some (wa.2.1.data.year, wa.2.1.data.month, wa.2.1.data.day))

/-- `Set_New_Devid(newid)`: fails fast when not connected, prepares a
`SDS011_DEVID` packet, stores the new id in bytes 13/14 (bytes 3/4 stay
zero), sends and waits. -/
def Set_New_Devid (w : World) (s : SDSState) (rIdx wIdx n0 n1 : ℕ) :
    RunResult :=
  if s.fd = 0xff then ⟨SDS011_ERROR, s, rIdx, wIdx, []⟩
  else
    let s0 := prepare_packet s SDS011_DEVID
    let s1 := { s0 with packet := (s0.packet.set 13 n0).set 14 n1 }
    let sr := send_sds w s1 rIdx wIdx
    if sr.status = SDS011_ERROR then sr
    else
      let wa := Wait_For_answer w sr.state sr.rIdx
      ⟨wa.1, wa.2.1, wa.2.2.1, sr.wIdx, sr.writes⟩

/-- `Set_Humidity_Cor(h)`: pure state update, no transport access and no
connection check; rejects `h` outside `[0, 100]`. -/
def Set_Humidity_Cor (s : SDSState) (h : ℚ) : ℕ × SDSState :=
  if h < 0 ∨ h > 100 then (SDS011_ERROR, s)
  else (SDS011_OK, { s with humidity := h })

/-- `Get_DevID()`: `(_dev_id[1] << 8) + _dev_id[0]`. -/
def Get_DevID (s : SDSState) : ℕ :=
  s.dev_id1 * 256 + s.dev_id0

/-! ### Connection establishment -/

/-- The retry loop of `Try_Connect`.  `i`/`j` are the two C counters and
the last component of the result counts the resends (`send_sds` calls
made inside the loop).  The loop in the source terminates because `j`
grows at every third iteration; `fuel` is an upper bound on the
remaining iterations and `none` is returned only when it is exhausted
(`Try_Connect` supplies fuel larger than the loop can consume). -/
def tryConnectLoop (w : World) :
    ℕ → SDSState → ℕ → ℕ → ℕ → ℕ → ℕ → Option (RunResult × ℕ)
  | 0, _, _, _, _, _, _ => none
  | fuel + 1, s, rIdx, wIdx, i, j, n =>
    if s.pending = false then some (⟨SDS011_OK, s, rIdx, wIdx, []⟩, n)
    else
      -- usleep(10000); read_sds();
      let rd := read_sds w s rIdx
      -- if (i++ == 2 && _PendingConfReq)
      if i = 2 ∧ rd.2.1.pending = true then
        let s2 := { rd.2.1 with pending := false }
        let sr := send_sds w s2 rd.2.2 wIdx
        -- if (send_sds() == SDS011_ERROR || j++ > 10) { _fd = 0xff; ... }
        if sr.status = SDS011_ERROR then
          some (⟨SDS011_ERROR, { sr.state with fd := 0xff },
                 sr.rIdx, sr.wIdx, sr.writes⟩, n + 1)
        else if j > 10 then
          some (⟨SDS011_ERROR, { sr.state with fd := 0xff },
                 sr.rIdx, sr.wIdx, sr.writes⟩, n + 1)
        else
          match tryConnectLoop w fuel sr.state sr.rIdx sr.wIdx 0 (j + 1)
              (n + 1) with
          | none => none
          | some (res, m) =>
            some ({ res with writes := sr.writes ++ res.writes }, m)
      else
        match tryConnectLoop w fuel rd.2.1 rd.2.2 wIdx (i + 1) j n with
        | none => none
        | some (res, m) => some (res, m)

/-- `Try_Connect(fd)`: stores the descriptor, sends a firmware-version
probe, then polls/resends until `_PendingConfReq` clears or the resend
budget is exhausted.  The result also carries the number of resends
performed inside the loop. -/
def Try_Connect (w : World) (s : SDSState) (rIdx wIdx fd : ℕ) :
    Option (RunResult × ℕ) :=
  let s0 := prepare_packet { s with fd := fd } SDS011_FWVER
  let sr := send_sds w s0 rIdx wIdx
  if sr.status = SDS011_ERROR then some (sr, 0)
  else
    match tryConnectLoop w 100 sr.state sr.rIdx sr.wIdx 0 0 0 with
    | none => none
    | some (res, m) =>
      some ({ res with writes := sr.writes ++ res.writes }, m)

/-- `begin(fd)` simply calls `Try_Connect(fd)`. -/
def Begin (w : World) (s : SDSState) (rIdx wIdx fd : ℕ) :
    Option (RunResult × ℕ) :=
  Try_Connect w s rIdx wIdx fd

/-! ### Real-number semantics of the measurement decode -/

/-- The value stored into the `float` field `data.pm25` by
`ProcessResponse` for a measurement frame, as a real number: the raw
16-bit field scaled by `0.1` and, when `_RelativeHumidity` is nonzero,
multiplied by the humidity-correction factor
`2.8 * pow(100 - h, -0.3745)`. -/
def pm25Corrected (raw : ℕ) (h : ℚ) (out : ℝ) : Prop :=
  if h = 0 then out = (raw : ℝ) / 10
  else out = (raw : ℝ) / 10 * (2.8 * ((100 : ℝ) - (h : ℝ)) ^ (-(0.3745) : ℝ))

/-- The value of the `float` field `data.pm10`: the raw 16-bit field
scaled by `0.1`, with no humidity correction. -/
def pm10Value (raw : ℕ) (out : ℝ) : Prop :=
  out = (raw : ℝ) / 10

/-! ### Concrete fixtures used by witnesses and counterexamples -/

/-- A transport that never delivers a byte (every `read()` is short) and
accepts every `write()`. -/
def worldNone : World := ⟨fun _ => none, fun _ => true⟩

/-- A valid firmware-version configuration response
(`0xC5`/`0x07`, date 19-5-15, device id `0x5030`, checksum
`(7+19+5+15+48+80) % 256 = 174`). -/
def confFrame : List ℕ := [170, 197, 7, 19, 5, 15, 48, 80, 174, 171]

/-- A valid measurement response (`0xC0`, PM2.5 raw bytes low `0x64`
high `0x00`, PM10 raw 50, checksum `(100+50+48+80) % 256 = 22`). -/
def dataFrame : List ℕ := [170, 192, 100, 0, 50, 0, 48, 80, 22, 171]

/-- `confFrame` with its checksum byte corrupted (175 instead of 174). -/
def badFrame : List ℕ := [170, 197, 7, 19, 5, 15, 48, 80, 175, 171]

/-- A transport that always delivers `confFrame` and accepts every
write. -/
def worldConf : World := ⟨fun _ => some confFrame, fun _ => true⟩

/-- A connected session (`begin` succeeded on descriptor 3). -/
def connState : SDSState := { initState with fd := 3 }

/-- A connected session with a configuration request outstanding. -/
def pendState : SDSState := { connState with pending := true }

/-! ### Helper lemmas -/

/-- The wraparound checksum is the plain sum reduced mod 256. -/
theorem Calc_Checksum_eq_sum (l : List ℕ) : Calc_Checksum l = l.sum % 256 := by
  have aux : ∀ (l : List ℕ) (a : ℕ),
      l.foldl (fun checksum b => (checksum + b) % 256) (a % 256) =
        (a + l.sum) % 256 := by
    intro l
    induction l with
    | nil => intro a; simp
    | cons b t ih =>
      intro a
      have h1 : (a % 256 + b) % 256 = (a + b) % 256 := by omega
      simp only [List.foldl_cons, List.sum_cons, h1, ih (a + b),
        Nat.add_assoc]
  have h0 := aux l 0
  simpa [Calc_Checksum] using h0

/-- `ProcessResponse` never touches the outgoing packet buffer, the
descriptor, the humidity setting or the cached device id. -/
theorem ProcessResponse_frame_fields (s : SDSState) (pkt : List ℕ) (n : ℕ) :
    (ProcessResponse s pkt n).2.packet = s.packet ∧
    (ProcessResponse s pkt n).2.fd = s.fd ∧
    (ProcessResponse s pkt n).2.humidity = s.humidity ∧
    (ProcessResponse s pkt n).2.dev_id0 = s.dev_id0 ∧
    (ProcessResponse s pkt n).2.dev_id1 = s.dev_id1 := by
  simp only [ProcessResponse]
  split_ifs <;> simp

/-- `read_sds` never touches the outgoing packet buffer, the descriptor
or the humidity setting. -/
theorem read_sds_frame_fields (w : World) (s : SDSState) (r : ℕ) :
    (read_sds w s r).2.1.packet = s.packet ∧
    (read_sds w s r).2.1.fd = s.fd ∧
    (read_sds w s r).2.1.humidity = s.humidity := by
  unfold read_sds
  split_ifs with h
  · exact ⟨rfl, rfl, rfl⟩
  · cases hra : readAttempt w r 5 with
    | none => simp
    | some p =>
      have hp := ProcessResponse_frame_fields s p.1 SDS011_PACKET_LEN
      by_cases he : (ProcessResponse s p.1 SDS011_PACKET_LEN).1 = SDS011_ERROR
      · simp [he, hp.1, hp.2.1, hp.2.2.1]
      · simp [he, hp.1, hp.2.1, hp.2.2.1]

/-- The wait loop never touches the outgoing packet buffer, the
descriptor or the humidity setting. -/
theorem waitAux_frame_fields (w : World) (fuel : ℕ) :
    ∀ (s : SDSState) (r : ℕ),
      (waitAux w fuel s r).2.1.packet = s.packet ∧
      (waitAux w fuel s r).2.1.fd = s.fd ∧
      (waitAux w fuel s r).2.1.humidity = s.humidity := by
  induction fuel with
  | zero =>
    intro s r
    unfold waitAux
    split_ifs <;> exact ⟨rfl, rfl, rfl⟩
  | succ fuel ih =>
    intro s r
    unfold waitAux
    split_ifs with h
    · exact ⟨rfl, rfl, rfl⟩
    · have hr := read_sds_frame_fields w s r
      have hw := ih (read_sds w s r).2.1 (read_sds w s r).2.2
      dsimp only
      exact ⟨hw.1.trans hr.1, hw.2.1.trans hr.2.1, hw.2.2.trans hr.2.2⟩

/-- The wait loop returns `SDS011_OK` or `SDS011_ERROR`, and returns
`SDS011_OK` exactly when it observed `_PendingConfReq = false`. -/
theorem waitAux_status (w : World) (fuel : ℕ) :
    ∀ (s : SDSState) (r : ℕ),
      ((waitAux w fuel s r).1 = SDS011_OK ∨
        (waitAux w fuel s r).1 = SDS011_ERROR) ∧
      ((waitAux w fuel s r).1 = SDS011_OK →
        (waitAux w fuel s r).2.1.pending = false) := by
  induction fuel with
  | zero =>
    intro s r
    unfold waitAux
    split_ifs with h
    · exact ⟨Or.inl rfl, fun _ => h⟩
    · exact ⟨Or.inr rfl, fun hc => by
        simp [SDS011_OK, SDS011_ERROR] at hc⟩
  | succ fuel ih =>
    intro s r
    unfold waitAux
    split_ifs with h
    · exact ⟨Or.inl rfl, fun _ => h⟩
    · exact ih (read_sds w s r).2.1 (read_sds w s r).2.2

/-- Case analysis of `send_sds`: fail-fast when not connected, error
without any transport write when the drain loop times out, and every
packet it hands to `write()` is the current packet buffer with the
checksum stamped into byte 17. -/
theorem send_sds_cases (w : World) (s : SDSState) (rIdx wIdx : ℕ) :
    (s.fd = 0xff → send_sds w s rIdx wIdx = ⟨SDS011_ERROR, s, rIdx, wIdx, []⟩) ∧
    (s.fd ≠ 0xff → (Wait_For_answer w s rIdx).1 = SDS011_ERROR →
      send_sds w s rIdx wIdx =
        ⟨SDS011_ERROR, (Wait_For_answer w s rIdx).2.1,
         (Wait_For_answer w s rIdx).2.2.1, wIdx, []⟩) ∧
    (∀ f ∈ (send_sds w s rIdx wIdx).writes, f = stampChecksum s.packet) ∧
    ((send_sds w s rIdx wIdx).writes ≠ [] →
      s.fd ≠ 0xff ∧ (Wait_For_answer w s rIdx).1 = SDS011_OK) := by
  have hwp : (Wait_For_answer w s rIdx).2.1.packet = s.packet :=
    (waitAux_frame_fields w 21 s rIdx).1
  have hws : ((Wait_For_answer w s rIdx).1 = SDS011_OK ∨
        (Wait_For_answer w s rIdx).1 = SDS011_ERROR) ∧
      ((Wait_For_answer w s rIdx).1 = SDS011_OK →
        (Wait_For_answer w s rIdx).2.1.pending = false) :=
    waitAux_status w 21 s rIdx
  by_cases h1 : s.fd = 0xff
  · refine ⟨fun _ => by simp [send_sds, h1], fun hc => absurd h1 hc, ?_, ?_⟩
    · intro f hf
      simp [send_sds, h1] at hf
    · intro hne
      exact absurd (by simp [send_sds, h1]) hne
  · by_cases h2 : (Wait_For_answer w s rIdx).1 = SDS011_ERROR
    · have hres : send_sds w s rIdx wIdx =
          ⟨SDS011_ERROR, (Wait_For_answer w s rIdx).2.1,
           (Wait_For_answer w s rIdx).2.2.1, wIdx, []⟩ := by
        simp [send_sds, h1, h2]
      refine ⟨fun hc => absurd hc h1, fun _ _ => hres, ?_, ?_⟩
      · intro f hf
        rw [hres] at hf
        simp at hf
      · intro hne
        rw [hres] at hne
        simp at hne
    · have hok : (Wait_For_answer w s rIdx).1 = SDS011_OK := by
        rcases hws.1 with hk | he
        · exact hk
        · exact absurd he h2
      have hwr : (send_sds w s rIdx wIdx).writes =
          [stampChecksum (Wait_For_answer w s rIdx).2.1.packet] := by
        by_cases h3 : w.writeOk wIdx = false <;>
          simp [send_sds, h1, h2, h3]
      refine ⟨fun hc => absurd hc h1, fun _ hc => absurd hc h2, ?_, ?_⟩
      · intro f hf
        rw [hwr] at hf
        simp only [List.mem_singleton] at hf
        rw [hf, hwp]
      · intro _
        exact ⟨h1, hok⟩

/-! ### Closed-form behaviour against the never-answering transport
(claim C8) -/

/-- Against `worldNone` every read attempt fails. -/
theorem read_sds_worldNone (s : SDSState) (r : ℕ) (hfd : s.fd ≠ 0xff) :
    read_sds worldNone s r = (SDS011_ERROR, s, r + 5) := by
  unfold read_sds
  rw [if_neg hfd]
  rfl

/-- The wait loop returns immediately when nothing is pending. -/
theorem waitAux_pending_false (w : World) (fuel : ℕ) (s : SDSState) (r : ℕ)
    (h : s.pending = false) : waitAux w fuel s r = (SDS011_OK, s, r, 0) := by
  unfold waitAux
  rw [if_pos h]

/-- The pending-flag exemption in the source,
`packet[2] != SDS011_QDATA || packet[2] != SDS011_SLEEP`, is a
tautology. -/
theorem qdata_sleep_tautology (x : ℕ) :
    x ≠ SDS011_QDATA ∨ x ≠ SDS011_SLEEP := by
  by_cases h : x = SDS011_QDATA
  · right
    rw [h]
    decide
  · left
    exact h

/-- `send_sds` on a connected, idle session with a working transport:
stamps the checksum, writes the packet once, sets the pending flag. -/
theorem send_sds_ready (w : World) (s : SDSState) (r wi : ℕ)
    (hfd : s.fd ≠ 0xff) (hp : s.pending = false)
    (hw : w.writeOk wi = true) :
    send_sds w s r wi =
      ⟨SDS011_OK, { s with packet := stampChecksum s.packet, pending := true },
       r, wi + 1, [stampChecksum s.packet]⟩ := by
  have hwa : Wait_For_answer w s r = (SDS011_OK, s, r, 0) :=
    waitAux_pending_false w 21 s r hp
  simp only [send_sds, hwa, hw]
  rw [if_neg hfd]
  norm_num [SDS011_OK, SDS011_ERROR]
  intro h1 h2
  exact absurd (h1.symm.trans h2) (by decide)

/-- Closed form of the wait loop against the never-answering transport:
with the flag set it performs one `read_sds` (5 `read()` calls) per
iteration until the fuel runs out, leaving the state untouched. -/
theorem waitAux_worldNone (fuel : ℕ) :
    ∀ (s : SDSState) (r : ℕ), s.pending = true → s.fd ≠ 0xff →
      waitAux worldNone fuel s r = (SDS011_ERROR, s, r + 5 * fuel, fuel) := by
  induction fuel with
  | zero =>
    intro s r hp hfd
    unfold waitAux
    rw [if_neg (by simp [hp])]
    rfl
  | succ fuel ih =>
    intro s r hp hfd
    simp only [waitAux]
    rw [if_neg (by simp [hp]), read_sds_worldNone s r hfd]
    rw [ih s (r + 5) hp hfd]
    rw [show r + 5 + 5 * fuel = r + 5 * (fuel + 1) by ring]

/-! ### Claim theorems -/

/-- C3: `ProcessResponse(b, n)` returns a parsed result (`SDS011_OK`)
only if `n = 10`, `b[0] = 0xAA`, `b[9] = 0xAB` and the checksum byte
`b[8]` equals the sum of the payload span `bytes[2..8]` (the six payload
bytes `b[2] .. b[7]`, exactly what the code checksums with
`Calc_Checksum(packet+2, 6)`) reduced mod 256; an input violating any
of these conditions yields `SDS011_ERROR`. -/
theorem C3_processResponse_validation (s : SDSState) (pkt : List ℕ) (n : ℕ) :
    ((ProcessResponse s pkt n).1 = SDS011_OK →
      n = 10 ∧ pkt.getD 0 0 = 0xAA ∧ pkt.getD 9 0 = 0xAB ∧
        pkt.getD 8 0 = ((pkt.drop 2).take 6).sum % 256) ∧
    ((n ≠ 10 ∨ pkt.getD 0 0 ≠ 0xAA ∨ pkt.getD 9 0 ≠ 0xAB ∨
        pkt.getD 8 0 ≠ ((pkt.drop 2).take 6).sum % 256) →
      (ProcessResponse s pkt n).1 = SDS011_ERROR) := by
  have hck := Calc_Checksum_eq_sum ((pkt.drop 2).take 6)
  by_cases hg1 : n ≠ SDS011_PACKET_LEN ∨ pkt.getD 0 0 ≠ SDS011_BYTE_BEGIN ∨
      pkt.getD (n - 1) 0 ≠ SDS011_BYTE_END
  · have hres : (ProcessResponse s pkt n).1 = SDS011_ERROR := by
      unfold ProcessResponse
      rw [if_pos hg1]
    refine ⟨fun hOK => ?_, fun _ => hres⟩
    rw [hres] at hOK
    exact absurd hOK (by decide)
  · push_neg at hg1
    obtain ⟨hn, hb, he⟩ := hg1
    have hn10 : n = 10 := hn
    subst hn10
    have he9 : pkt.getD 9 0 = 0xAB := he
    by_cases hg2 : pkt.getD 8 0 ≠ Calc_Checksum ((pkt.drop 2).take 6)
    · have hres : (ProcessResponse s pkt 10).1 = SDS011_ERROR := by
        unfold ProcessResponse
        rw [if_neg (by push_neg; exact ⟨hn, hb, he⟩), if_pos hg2]
      refine ⟨fun hOK => ?_, fun _ => hres⟩
      rw [hres] at hOK
      exact absurd hOK (by decide)
    · push_neg at hg2
      have hsum : pkt.getD 8 0 = ((pkt.drop 2).take 6).sum % 256 := by
        rw [hg2, hck]
      refine ⟨fun _ => ⟨rfl, hb, he9, hsum⟩, fun hviol => ?_⟩
      rcases hviol with h | h | h | h
      · exact absurd rfl h
      · exact absurd hb h
      · exact absurd he9 h
      · exact absurd hsum h

/-- Witness for C3 at a concrete input: `badFrame` has a corrupted
checksum byte and is rejected. -/
theorem C3_witness :
    (badFrame.getD 8 0 ≠ ((badFrame.drop 2).take 6).sum % 256) ∧
    (ProcessResponse pendState badFrame 10).1 = SDS011_ERROR :=
  ⟨by decide,
   (C3_processResponse_validation pendState badFrame 10).2 (by decide)⟩

/-- C6: `ProcessResponse` clears `_PendingConfReq` exactly on a
successfully parsed configuration frame (`b[1] = 0xC5` with a recognised
sub-command); a successfully parsed measurement frame (`b[1] = 0xC0`)
and every rejected frame leave the flag unchanged. -/
theorem C6_pending_cleared_iff_conf (s : SDSState) (pkt : List ℕ) (n : ℕ) :
    ((ProcessResponse s pkt n).1 = SDS011_OK → pkt.getD 1 0 = SDS011_CONF →
      (ProcessResponse s pkt n).2.pending = false) ∧
    ((ProcessResponse s pkt n).1 = SDS011_OK → pkt.getD 1 0 = SDS011_DATA →
      (ProcessResponse s pkt n).2.pending = s.pending) ∧
    ((ProcessResponse s pkt n).1 = SDS011_ERROR →
      (ProcessResponse s pkt n).2.pending = s.pending) := by
  simp only [ProcessResponse]
  split_ifs <;>
    simp_all [SDS011_OK, SDS011_ERROR, SDS011_DATA, SDS011_CONF]

/-- Witness for C6: a firmware-version configuration response clears the
pending flag; a measurement response leaves it set. -/
theorem C6_witness :
    (ProcessResponse pendState confFrame 10).2.pending = false ∧
    (ProcessResponse pendState dataFrame 10).2.pending = true := by
  constructor
  · exact (C6_pending_cleared_iff_conf pendState confFrame 10).1
      (by decide) (by decide)
  · have h := (C6_pending_cleared_iff_conf pendState dataFrame 10).2.1
      (by decide) (by decide)
    rw [h]
    rfl

/-- C10: rejection for bad length, bad framing or checksum mismatch
returns the session state completely unchanged, and a failed `read_sds`
never updates the cached device id. -/
theorem C10_reject_preserves_state (s : SDSState) (pkt : List ℕ) (n : ℕ)
    (w : World) (r : ℕ) :
    ((n ≠ 10 ∨ pkt.getD 0 0 ≠ 0xAA ∨ pkt.getD (n - 1) 0 ≠ 0xAB ∨
        pkt.getD 8 0 ≠ ((pkt.drop 2).take 6).sum % 256) →
      ProcessResponse s pkt n = (SDS011_ERROR, s)) ∧
    ((read_sds w s r).1 = SDS011_ERROR →
      (read_sds w s r).2.1.dev_id0 = s.dev_id0 ∧
      (read_sds w s r).2.1.dev_id1 = s.dev_id1) := by
  constructor
  · intro hviol
    by_cases hg1 : n ≠ SDS011_PACKET_LEN ∨ pkt.getD 0 0 ≠ SDS011_BYTE_BEGIN ∨
        pkt.getD (n - 1) 0 ≠ SDS011_BYTE_END
    · unfold ProcessResponse
      rw [if_pos hg1]
    · push_neg at hg1
      obtain ⟨hn, hb, he⟩ := hg1
      have hg2 : pkt.getD 8 0 ≠ Calc_Checksum ((pkt.drop 2).take 6) := by
        rw [Calc_Checksum_eq_sum]
        rcases hviol with h | h | h | h
        · exact absurd hn h
        · exact absurd hb h
        · exact absurd he h
        · exact h
      unfold ProcessResponse
      rw [if_neg (by push_neg; exact ⟨hn, hb, he⟩), if_pos hg2]
  · intro herr
    unfold read_sds at herr ⊢
    split_ifs at herr ⊢ with h1
    · exact ⟨rfl, rfl⟩
    · cases hra : readAttempt w r 5 with
      | none => simp [hra]
      | some p =>
        have hp := ProcessResponse_frame_fields s p.1 SDS011_PACKET_LEN
        by_cases he : (ProcessResponse s p.1 SDS011_PACKET_LEN).1 = SDS011_ERROR
        · simp [hra, he, hp.2.2.2.1, hp.2.2.2.2]
        · rw [hra] at herr
          simp only [he, if_neg] at herr
          exact absurd herr (by simp [he]; decide)

/-- Witness for C10: the corrupted-checksum frame is rejected with the
state returned untouched, and a `read_sds` against a dead transport
leaves the device-id cache alone. -/
theorem C10_witness :
    ProcessResponse pendState badFrame 10 = (SDS011_ERROR, pendState) ∧
    (read_sds worldNone pendState 0).2.1.dev_id0 = pendState.dev_id0 := by
  refine ⟨(C10_reject_preserves_state pendState badFrame 10 worldNone 0).1
    (by decide), ?_⟩
  exact ((C10_reject_preserves_state pendState badFrame 10 worldNone 0).2
    (by decide)).1

/-- C5: a valid measurement frame decodes
`pm25 = (b[3]*256 + b[2]) / 10` and `pm10 = (b[5]*256 + b[4]) / 10`;
with stored humidity 0 the raw value is returned unchanged, and with
`0 < h ≤ 100` the returned pm25 is the raw value times
`2.8 * (100 - h) ^ (-0.3745)`, pm10 unchanged. -/
theorem C5_measurement_decode (s : SDSState) (pkt : List ℕ)
    (hOK : (ProcessResponse s pkt 10).1 = SDS011_OK)
    (hData : pkt.getD 1 0 = SDS011_DATA) :
    (ProcessResponse s pkt 10).2.data.pm25raw =
        pkt.getD 3 0 * 256 + pkt.getD 2 0 ∧
    (ProcessResponse s pkt 10).2.data.pm10raw =
        pkt.getD 5 0 * 256 + pkt.getD 4 0 ∧
    (∀ out : ℝ,
      pm25Corrected ((ProcessResponse s pkt 10).2.data.pm25raw)
        s.humidity out →
      (s.humidity = 0 →
        out = ((pkt.getD 3 0 * 256 + pkt.getD 2 0 : ℕ) : ℝ) / 10) ∧
      (0 < s.humidity → s.humidity ≤ 100 →
        out = ((pkt.getD 3 0 * 256 + pkt.getD 2 0 : ℕ) : ℝ) / 10 *
          (2.8 * ((100 : ℝ) - (s.humidity : ℝ)) ^ (-(0.3745) : ℝ)))) ∧
    (∀ out : ℝ,
      pm10Value ((ProcessResponse s pkt 10).2.data.pm10raw) out →
      out = ((pkt.getD 5 0 * 256 + pkt.getD 4 0 : ℕ) : ℝ) / 10) := by
  by_cases hg1 : (10 : ℕ) ≠ SDS011_PACKET_LEN ∨
      pkt.getD 0 0 ≠ SDS011_BYTE_BEGIN ∨
      pkt.getD (10 - 1) 0 ≠ SDS011_BYTE_END
  · exfalso
    unfold ProcessResponse at hOK
    rw [if_pos hg1] at hOK
    simp [SDS011_ERROR, SDS011_OK] at hOK
  · by_cases hg2 : pkt.getD 8 0 ≠ Calc_Checksum ((pkt.drop 2).take 6)
    · exfalso
      unfold ProcessResponse at hOK
      rw [if_neg hg1, if_pos hg2] at hOK
      simp [SDS011_ERROR, SDS011_OK] at hOK
    · have h25 : (ProcessResponse s pkt 10).2.data.pm25raw =
          pkt.getD 3 0 * 256 + pkt.getD 2 0 := by
        simp only [ProcessResponse]
        rw [if_neg hg1, if_neg hg2, if_pos hData]
      have h10 : (ProcessResponse s pkt 10).2.data.pm10raw =
          pkt.getD 5 0 * 256 + pkt.getD 4 0 := by
        simp only [ProcessResponse]
        rw [if_neg hg1, if_neg hg2, if_pos hData]
      refine ⟨h25, h10, ?_, ?_⟩
      · intro out hpc
        rw [h25] at hpc
        unfold pm25Corrected at hpc
        constructor
        · intro h0
          rw [if_pos h0] at hpc
          exact hpc
        · intro hlt _
          rw [if_neg hlt.ne'] at hpc
          exact hpc
      · intro out hpv
        rw [h10] at hpv
        exact hpv

/-- Witness for C5 (spec scenario B): PM2.5 raw bytes low `0x64`,
high `0x00` in a valid frame, humidity 0, give pm25 = 10.0. -/
theorem C5_witness :
    (ProcessResponse pendState dataFrame 10).1 = SDS011_OK ∧
    (ProcessResponse pendState dataFrame 10).2.data.pm25raw = 100 ∧
    (10 : ℝ) = ((100 : ℕ) : ℝ) / 10 := by
  have h := C5_measurement_decode pendState dataFrame (by decide) (by decide)
  have h25 : (ProcessResponse pendState dataFrame 10).2.data.pm25raw = 100 := by
    rw [h.1]
    decide
  have hpc : pm25Corrected
      ((ProcessResponse pendState dataFrame 10).2.data.pm25raw)
      pendState.humidity 10 := by
    rw [h25]
    unfold pm25Corrected
    rw [if_pos (show pendState.humidity = 0 from rfl)]
    norm_num
  have hout := (h.2.2.1 10 hpc).1 rfl
  refine ⟨by decide, h25, ?_⟩
  have hcast : ((dataFrame.getD 3 0 * 256 + dataFrame.getD 2 0 : ℕ) : ℝ) =
      ((100 : ℕ) : ℝ) := by norm_num [dataFrame]
  rw [hcast] at hout
  exact hout

/-- C2: invoking `send_sds` while `_PendingConfReq` is set writes nothing
until the drain loop has observed the flag cleared; if the drain loop
times out, `send_sds` returns `SDS011_ERROR` with no transport write. -/
theorem C2_send_serialized (w : World) (s : SDSState) (rIdx wIdx : ℕ)
    (_hp : s.pending = true) (hfd : s.fd ≠ 0xff) :
    ((Wait_For_answer w s rIdx).1 = SDS011_ERROR →
      (send_sds w s rIdx wIdx).status = SDS011_ERROR ∧
      (send_sds w s rIdx wIdx).writes = []) ∧
    ((send_sds w s rIdx wIdx).writes ≠ [] →
      (Wait_For_answer w s rIdx).1 = SDS011_OK ∧
      (Wait_For_answer w s rIdx).2.1.pending = false) := by
  have hc := send_sds_cases w s rIdx wIdx
  have hst := waitAux_status w 21 s rIdx
  constructor
  · intro he
    rw [hc.2.1 hfd he]
    exact ⟨rfl, rfl⟩
  · intro hne
    have hok := (hc.2.2.2 hne).2
    exact ⟨hok, hst.2 hok⟩

/-- Witness for C2: with a pending request and a dead transport the
drain loop times out and `send_sds` errors out without writing. -/
theorem C2_witness :
    pendState.pending = true ∧ pendState.fd ≠ 0xff ∧
    (send_sds worldNone pendState 0 0).status = SDS011_ERROR ∧
    (send_sds worldNone pendState 0 0).writes = [] := by
  have h := C2_send_serialized worldNone pendState 0 0 rfl (by decide)
  have he : (Wait_For_answer worldNone pendState 0).1 = SDS011_ERROR := by
    show (waitAux worldNone 21 pendState 0).1 = SDS011_ERROR
    rw [waitAux_worldNone 21 pendState 0 rfl (by decide)]
  exact ⟨rfl, by decide, (h.1 he).1, (h.1 he).2⟩

/-- C7 (evaluation at the failing input): against a transport that never
answers, the wait loop performs 21 `read_sds` attempts — the bound
`i++ > 20` admits `i = 0..20` — before returning `SDS011_ERROR`
(21 attempts, 5 `read()` calls each = final read index 105), and it
returns `SDS011_OK` immediately (0 attempts) when the flag is already
clear. -/
theorem C7_wait_for_answer_bound :
    Wait_For_answer worldNone pendState 0 =
      (SDS011_ERROR, pendState, 105, 21) ∧
    Wait_For_answer worldNone connState 0 = (SDS011_OK, connState, 0, 0) := by
  constructor
  · show waitAux worldNone 21 pendState 0 = (SDS011_ERROR, pendState, 105, 21)
    rw [waitAux_worldNone 21 pendState 0 rfl (by decide)]
  · exact waitAux_pending_false worldNone 21 connState 0 rfl

/-- C1 (evaluation at the failing input): sending a data-query packet
(command byte `0x04`) over a working transport returns `SDS011_OK` and
leaves `_PendingConfReq = true`, because the exemption
`packet[2] != SDS011_QDATA || packet[2] != SDS011_SLEEP` is a tautology. -/
theorem C1_qdata_sets_pending :
    (prepare_packet connState SDS011_QDATA).packet.getD 2 0 = SDS011_QDATA ∧
    (send_sds worldNone (prepare_packet connState SDS011_QDATA) 0 0).status =
      SDS011_OK ∧
    (send_sds worldNone (prepare_packet connState SDS011_QDATA) 0 0).state.pending =
      true := by
  have hsend := send_sds_ready worldNone
    (prepare_packet connState SDS011_QDATA) 0 0 (by decide) rfl rfl
  rw [hsend]
  exact ⟨rfl, rfl, rfl⟩

/-- C9 (amended): every façade operation that touches the transport fails
fast with `SDS011_ERROR` and writes nothing while the descriptor still
holds the not-connected sentinel `0xff`. -/
theorem C9_not_connected_fail_fast (w : World) (s : SDSState)
    (rIdx wIdx c mode p rmode n0 n1 : ℕ) (h : s.fd = 0xff) :
    ((Get_Param w s rIdx wIdx c).1.status = SDS011_ERROR ∧
      (Get_Param w s rIdx wIdx c).1.writes = []) ∧
    ((Set_Param w s rIdx wIdx mode p).status = SDS011_ERROR ∧
      (Set_Param w s rIdx wIdx mode p).writes = []) ∧
    ((Report_Data w s rIdx wIdx rmode).1.status = SDS011_ERROR ∧
      (Report_Data w s rIdx wIdx rmode).1.writes = []) ∧
    ((Get_Firmware_Version w s rIdx wIdx).1.status = SDS011_ERROR ∧
      (Get_Firmware_Version w s rIdx wIdx).1.writes = []) ∧
    ((Set_New_Devid w s rIdx wIdx n0 n1).status = SDS011_ERROR ∧
      (Set_New_Devid w s rIdx wIdx n0 n1).writes = []) := by
  have hsend : ∀ (s' : SDSState) (r wi : ℕ), s'.fd = 0xff →
      send_sds w s' r wi = ⟨SDS011_ERROR, s', r, wi, []⟩ :=
    fun s' r wi h' => (send_sds_cases w s' r wi).1 h'
  have hread : read_sds w s rIdx = (SDS011_ERROR, s, rIdx) := by
    unfold read_sds
    rw [if_pos h]
  refine ⟨?_, ?_, ?_, ?_, ?_⟩
  · have hs := hsend (prepare_packet s c) rIdx wIdx h
    simp [Get_Param, hs, SDS011_ERROR]
  · by_cases hv : mode = SDS011_PERIOD ∧ p > 30
    · simp [Set_Param, hv]
    · have hs := hsend { prepare_packet s mode with
        packet := ((prepare_packet s mode).packet.set 3 1).set 4 p } rIdx wIdx h
      simp [Set_Param, hv, hs, SDS011_ERROR]
  · by_cases hq : rmode = REPORT_QUERY
    · have hs := hsend (prepare_packet s SDS011_QDATA) rIdx wIdx h
      simp [Report_Data, hq, hs, SDS011_ERROR]
    · simp [Report_Data, hq, hread, SDS011_ERROR]
  · have hs := hsend (prepare_packet s SDS011_FWVER) rIdx wIdx h
    simp [Get_Firmware_Version, hs, SDS011_ERROR]
  · simp [Set_New_Devid, h]

/-- Counterexample for C9 as stated: the typed façade command
`Set_Humidity_Cor` (set humidity correction, §4.4) succeeds with
`SDS011_OK` on a session that was never connected. -/
theorem C9_counterexample :
    initState.fd = 0xff ∧
    (Set_Humidity_Cor initState 50).1 = SDS011_OK ∧
    SDS011_OK ≠ SDS011_ERROR := by
  refine ⟨rfl, ?_, by decide⟩
  unfold Set_Humidity_Cor
  rw [if_neg (by norm_num)]

/-- Witness for C9 at concrete inputs: a never-connected session rejects
a query and a device-id change without writing. -/
theorem C9_witness :
    (Get_Param worldNone initState 0 0 SDS011_MODE).1.status = SDS011_ERROR ∧
    (Set_New_Devid worldNone initState 0 0 1 2).writes = [] := by
  have h := C9_not_connected_fail_fast worldNone initState 0 0 SDS011_MODE
    SDS011_MODE 0 REPORT_STREAM 1 2 rfl
  exact ⟨h.1.1, h.2.2.2.2.2⟩

/-! ### Frame shape of outgoing packets (claim C4) -/

/-- Common shape of every outgoing command frame: 19 bytes, header
`0xAA`, command marker `0xB4`, command id in byte 2, cached device id in
bytes 15/16, checksum byte 17 = sum of bytes 2..16 mod 256, trailer
`0xAB`. -/
def commandFrameOK (pkt : List ℕ) (cmd d0 d1 : ℕ) : Prop :=
  pkt.length = 19 ∧ pkt.getD 0 0 = SDS011_BYTE_BEGIN ∧
  pkt.getD 1 0 = SDS011_BYTE_CMD ∧ pkt.getD 2 0 = cmd ∧
  pkt.getD 15 0 = d0 ∧ pkt.getD 16 0 = d1 ∧
  pkt.getD 17 0 = ((pkt.drop 2).take 15).sum % 256 ∧
  pkt.getD 18 0 = SDS011_BYTE_END

/-- Query frames leave the action and parameter bytes zero. -/
def queryActionBytes (pkt : List ℕ) : Prop :=
  pkt.getD 3 0 = 0 ∧ pkt.getD 4 0 = 0

/-- All reserved bytes (5..14) zero. -/
def reservedBytesZero (pkt : List ℕ) : Prop :=
  pkt.getD 5 0 = 0 ∧ pkt.getD 6 0 = 0 ∧ pkt.getD 7 0 = 0 ∧
  pkt.getD 8 0 = 0 ∧ pkt.getD 9 0 = 0 ∧ pkt.getD 10 0 = 0 ∧
  pkt.getD 11 0 = 0 ∧ pkt.getD 12 0 = 0 ∧ pkt.getD 13 0 = 0 ∧
  pkt.getD 14 0 = 0

/-- The state `send_sds` leaves behind carries either the caller's packet
buffer or that buffer with the checksum stamped. -/
theorem send_sds_packet (w : World) (s : SDSState) (rIdx wIdx : ℕ) :
    (send_sds w s rIdx wIdx).state.packet = s.packet ∨
    (send_sds w s rIdx wIdx).state.packet = stampChecksum s.packet := by
  have hwp : (Wait_For_answer w s rIdx).2.1.packet = s.packet :=
    (waitAux_frame_fields w 21 s rIdx).1
  unfold send_sds
  by_cases h1 : s.fd = 0xff
  · simp [h1]
  · by_cases h2 : (Wait_For_answer w s rIdx).1 = SDS011_ERROR
    · simp [h1, h2, hwp]
    · by_cases h3 : w.writeOk wIdx = false
      · simp [h1, h2, h3, hwp]
      · right
        simp only [h1, h2, h3, if_neg, if_false]
        split_ifs <;> simp [hwp]

/-- Every packet written during the `Try_Connect` retry loop is the
checksum-stamped firmware-probe packet built before the loop started. -/
theorem tryConnectLoop_writes (w : World) (base : List ℕ)
    (hb : stampChecksum (stampChecksum base) = stampChecksum base) :
    ∀ (fuel : ℕ) (s : SDSState) (rIdx wIdx i j n : ℕ)
      (res : RunResult) (m : ℕ),
      (s.packet = base ∨ s.packet = stampChecksum base) →
      tryConnectLoop w fuel s rIdx wIdx i j n = some (res, m) →
      ∀ f ∈ res.writes, f = stampChecksum base := by
  intro fuel
  induction fuel with
  | zero =>
    intro s r wi i j n res m _ heq
    simp [tryConnectLoop] at heq
  | succ fuel ih =>
    intro s r wi i j n res m hinv heq
    simp only [tryConnectLoop] at heq
    by_cases hp : s.pending = false
    · rw [if_pos hp] at heq
      simp only [Option.some.injEq, Prod.mk.injEq] at heq
      obtain ⟨hres, _⟩ := heq
      rw [← hres]
      intro f hf
      simp at hf
    · rw [if_neg hp] at heq
      have hrdp : (read_sds w s r).2.1.packet = s.packet :=
        (read_sds_frame_fields w s r).1
      by_cases htr : i = 2 ∧ (read_sds w s r).2.1.pending = true
      · rw [if_pos htr] at heq
        have hs2p : ({ (read_sds w s r).2.1 with pending := false } :
            SDSState).packet = s.packet := hrdp
        have hinv2 : ({ (read_sds w s r).2.1 with pending := false } :
              SDSState).packet = base ∨
            ({ (read_sds w s r).2.1 with pending := false } :
              SDSState).packet = stampChecksum base := by
          rw [hs2p]; exact hinv
        have hsw : ∀ f ∈ (send_sds w
            { (read_sds w s r).2.1 with pending := false }
            (read_sds w s r).2.2 wi).writes, f = stampChecksum base := by
          intro f hf
          have hf' := (send_sds_cases w
            { (read_sds w s r).2.1 with pending := false }
            (read_sds w s r).2.2 wi).2.2.1 f hf
          rcases hinv2 with hbb | hbb
          · rw [hf', hbb]
          · rw [hf', hbb, hb]
        have hsp := send_sds_packet w
          { (read_sds w s r).2.1 with pending := false }
          (read_sds w s r).2.2 wi
        have hinv3 : (send_sds w
              { (read_sds w s r).2.1 with pending := false }
              (read_sds w s r).2.2 wi).state.packet = base ∨
            (send_sds w { (read_sds w s r).2.1 with pending := false }
              (read_sds w s r).2.2 wi).state.packet = stampChecksum base := by
          rcases hsp with hq | hq
          · rw [hq]; exact hinv2
          · rcases hinv2 with hbb | hbb
            · rw [hq, hbb]; right; rfl
            · rw [hq, hbb, hb]; right; rfl
        by_cases he1 : (send_sds w { (read_sds w s r).2.1 with pending := false }
            (read_sds w s r).2.2 wi).status = SDS011_ERROR
        · rw [if_pos he1] at heq
          simp only [Option.some.injEq, Prod.mk.injEq] at heq
          obtain ⟨hres, _⟩ := heq
          rw [← hres]
          exact hsw
        · rw [if_neg he1] at heq
          by_cases he2 : j > 10
          · rw [if_pos he2] at heq
            simp only [Option.some.injEq, Prod.mk.injEq] at heq
            obtain ⟨hres, _⟩ := heq
            rw [← hres]
            exact hsw
          · rw [if_neg he2] at heq
            cases hrec : tryConnectLoop w fuel
                (send_sds w { (read_sds w s r).2.1 with pending := false }
                  (read_sds w s r).2.2 wi).state
                (send_sds w { (read_sds w s r).2.1 with pending := false }
                  (read_sds w s r).2.2 wi).rIdx
                (send_sds w { (read_sds w s r).2.1 with pending := false }
                  (read_sds w s r).2.2 wi).wIdx 0 (j + 1) (n + 1) with
            | none =>
              rw [hrec] at heq
              simp at heq
            | some pr =>
              obtain ⟨res1, m1⟩ := pr
              rw [hrec] at heq
              simp only [Option.some.injEq, Prod.mk.injEq] at heq
              obtain ⟨hres, _⟩ := heq
              rw [← hres]
              intro f hf
              simp only [List.mem_append] at hf
              rcases hf with hf | hf
              · exact hsw f hf
              · exact ih _ _ _ 0 (j + 1) (n + 1) res1 m1 hinv3 hrec f hf
      · rw [if_neg htr] at heq
        cases hrec : tryConnectLoop w fuel (read_sds w s r).2.1
            (read_sds w s r).2.2 wi (i + 1) j n with
        | none =>
          rw [hrec] at heq
          simp at heq
        | some pr =>
          obtain ⟨res1, m1⟩ := pr
          rw [hrec] at heq
          simp only [Option.some.injEq, Prod.mk.injEq] at heq
          obtain ⟨hres, _⟩ := heq
          rw [← hres]
          exact ih _ _ _ (i + 1) j n res1 m1 (by rw [hrdp]; exact hinv) hrec

/-- `Get_Param` only ever writes its own prepared query packet. -/
theorem Get_Param_writes (w : World) (s : SDSState) (r wi c : ℕ) :
    ∀ f ∈ (Get_Param w s r wi c).1.writes,
      f = stampChecksum (prepare_packet s c).packet := by
  intro f hf
  simp only [Get_Param] at hf
  split_ifs at hf <;>
    exact (send_sds_cases w (prepare_packet s c) r wi).2.2.1 f hf

/-- `Set_Param` only ever writes its own prepared set packet. -/
theorem Set_Param_writes (w : World) (s : SDSState) (r wi mode p : ℕ) :
    ∀ f ∈ (Set_Param w s r wi mode p).writes,
      f = stampChecksum
        (((prepare_packet s mode).packet.set 3 1).set 4 p) := by
  intro f hf
  simp only [Set_Param] at hf
  split_ifs at hf
  · simp at hf
  · exact (send_sds_cases w _ r wi).2.2.1 f hf
  · exact (send_sds_cases w _ r wi).2.2.1 f hf

/-- `Report_Data` in query mode only ever writes the data-query packet. -/
theorem Report_Data_writes (w : World) (s : SDSState) (r wi : ℕ) :
    ∀ f ∈ (Report_Data w s r wi REPORT_QUERY).1.writes,
      f = stampChecksum (prepare_packet s SDS011_QDATA).packet := by
  intro f hf
  simp only [Report_Data] at hf
  split_ifs at hf <;>
    exact (send_sds_cases w (prepare_packet s SDS011_QDATA) r wi).2.2.1 f hf

/-- `Get_Firmware_Version` only ever writes the firmware query packet. -/
theorem Get_Firmware_Version_writes (w : World) (s : SDSState) (r wi : ℕ) :
    ∀ f ∈ (Get_Firmware_Version w s r wi).1.writes,
      f = stampChecksum (prepare_packet s SDS011_FWVER).packet := by
  intro f hf
  simp only [Get_Firmware_Version] at hf
  split_ifs at hf <;>
    exact (send_sds_cases w (prepare_packet s SDS011_FWVER) r wi).2.2.1 f hf

/-- `Set_New_Devid` only ever writes its prepared device-id packet. -/
theorem Set_New_Devid_writes (w : World) (s : SDSState) (r wi n0 n1 : ℕ) :
    ∀ f ∈ (Set_New_Devid w s r wi n0 n1).writes,
      f = stampChecksum
        (((prepare_packet s SDS011_DEVID).packet.set 13 n0).set 14 n1) := by
  intro f hf
  simp only [Set_New_Devid] at hf
  split_ifs at hf
  · simp at hf
  · exact (send_sds_cases w _ r wi).2.2.1 f hf
  · exact (send_sds_cases w _ r wi).2.2.1 f hf

/-- Every packet `Try_Connect` writes (probe and resends) is the stamped
firmware-probe packet. -/
theorem Try_Connect_writes (w : World) (s : SDSState) (r wi fd : ℕ)
    (res : RunResult) (m : ℕ) (h : Try_Connect w s r wi fd = some (res, m)) :
    ∀ f ∈ res.writes,
      f = stampChecksum
        (prepare_packet { s with fd := fd } SDS011_FWVER).packet := by
  have hb : stampChecksum (stampChecksum
        (prepare_packet { s with fd := fd } SDS011_FWVER).packet) =
      stampChecksum (prepare_packet { s with fd := fd } SDS011_FWVER).packet :=
    rfl
  simp only [Try_Connect] at h
  by_cases h1 : (send_sds w (prepare_packet { s with fd := fd } SDS011_FWVER)
      r wi).status = SDS011_ERROR
  · rw [if_pos h1] at h
    simp only [Option.some.injEq, Prod.mk.injEq] at h
    obtain ⟨hres, _⟩ := h
    rw [← hres]
    exact (send_sds_cases w _ r wi).2.2.1
  · rw [if_neg h1] at h
    cases hrec : tryConnectLoop w 100
        (send_sds w (prepare_packet { s with fd := fd } SDS011_FWVER)
          r wi).state
        (send_sds w (prepare_packet { s with fd := fd } SDS011_FWVER)
          r wi).rIdx
        (send_sds w (prepare_packet { s with fd := fd } SDS011_FWVER)
          r wi).wIdx 0 0 0 with
    | none =>
      rw [hrec] at h
      simp at h
    | some pr =>
      obtain ⟨res1, m1⟩ := pr
      rw [hrec] at h
      simp only [Option.some.injEq, Prod.mk.injEq] at h
      obtain ⟨hres, _⟩ := h
      rw [← hres]
      intro f hf
      simp only [List.mem_append] at hf
      rcases hf with hf | hf
      · exact (send_sds_cases w _ r wi).2.2.1 f hf
      · refine tryConnectLoop_writes w _ hb 100 _ _ _ 0 0 0 res1 m1 ?_ hrec f hf
        exact send_sds_packet w
          (prepare_packet { s with fd := fd } SDS011_FWVER) r wi

/-- Shape of a stamped query packet. -/
theorem stamped_query_frame (s : SDSState) (c : ℕ) :
    commandFrameOK (stampChecksum (prepare_packet s c).packet) c
      s.dev_id0 s.dev_id1 ∧
    queryActionBytes (stampChecksum (prepare_packet s c).packet) ∧
    reservedBytesZero (stampChecksum (prepare_packet s c).packet) := by
  refine ⟨⟨rfl, rfl, rfl, rfl, rfl, rfl, ?_, rfl⟩, ⟨rfl, rfl⟩,
    ⟨rfl, rfl, rfl, rfl, rfl, rfl, rfl, rfl, rfl, rfl⟩⟩
  exact Calc_Checksum_eq_sum
    (((prepare_packet s c).packet.drop 2).take 15)

/-- Shape of a stamped `Set_Param` packet. -/
theorem stamped_set_frame (s : SDSState) (mode p : ℕ) :
    commandFrameOK (stampChecksum
        (((prepare_packet s mode).packet.set 3 1).set 4 p)) mode
      s.dev_id0 s.dev_id1 ∧
    (stampChecksum (((prepare_packet s mode).packet.set 3 1).set 4 p)).getD
        3 0 = 1 ∧
    (stampChecksum (((prepare_packet s mode).packet.set 3 1).set 4 p)).getD
        4 0 = p ∧
    reservedBytesZero (stampChecksum
        (((prepare_packet s mode).packet.set 3 1).set 4 p)) := by
  refine ⟨⟨rfl, rfl, rfl, rfl, rfl, rfl, ?_, rfl⟩, rfl, rfl,
    ⟨rfl, rfl, rfl, rfl, rfl, rfl, rfl, rfl, rfl, rfl⟩⟩
  exact Calc_Checksum_eq_sum
    (((((prepare_packet s mode).packet.set 3 1).set 4 p).drop 2).take 15)

/-- Shape of a stamped `Set_New_Devid` packet. -/
theorem stamped_devid_frame (s : SDSState) (n0 n1 : ℕ) :
    commandFrameOK (stampChecksum
        (((prepare_packet s SDS011_DEVID).packet.set 13 n0).set 14 n1))
      SDS011_DEVID s.dev_id0 s.dev_id1 ∧
    queryActionBytes (stampChecksum
        (((prepare_packet s SDS011_DEVID).packet.set 13 n0).set 14 n1)) ∧
    (stampChecksum (((prepare_packet s SDS011_DEVID).packet.set 13 n0).set
        14 n1)).getD 13 0 = n0 ∧
    (stampChecksum (((prepare_packet s SDS011_DEVID).packet.set 13 n0).set
        14 n1)).getD 14 0 = n1 := by
  refine ⟨⟨rfl, rfl, rfl, rfl, rfl, rfl, ?_, rfl⟩, ⟨rfl, rfl⟩, rfl, rfl⟩
  exact Calc_Checksum_eq_sum
    (((((prepare_packet s SDS011_DEVID).packet.set 13 n0).set 14
      n1).drop 2).take 15)

/-- Counterexample for C4 as stated: the frame written by
`Set_New_Devid(newid = {1, 2})` carries the new id in reserved bytes
13/14 (byte 13 = 1 ≠ 0) and leaves the action byte 3 at 0 although it is
a set operation. -/
theorem C4_counterexample :
    (Set_New_Devid worldConf connState 0 0 1 2).writes.length = 1 ∧
    ((Set_New_Devid worldConf connState 0 0 1 2).writes.getD 0 []).getD 13 0
      = 1 ∧
    ((Set_New_Devid worldConf connState 0 0 1 2).writes.getD 0 []).getD 3 0
      = 0 := by
  have hsend := send_sds_ready worldConf
    { prepare_packet connState SDS011_DEVID with
      packet := ((prepare_packet connState SDS011_DEVID).packet.set 13
        1).set 14 2 }
    0 0 (by decide) rfl rfl
  have hw : (Set_New_Devid worldConf connState 0 0 1 2).writes =
      [stampChecksum (((prepare_packet connState SDS011_DEVID).packet.set 13
        1).set 14 2)] := by
    simp only [Set_New_Devid, hsend]
    rw [if_neg (by decide : ¬ (connState.fd = 0xff))]
    rw [if_neg (by decide : ¬ (SDS011_OK : ℕ) = SDS011_ERROR)]
  refine ⟨?_, ?_, ?_⟩ <;> rw [hw] <;> decide

/-- C4 (amended): every frame handed to `write()` is 19 bytes with header
`0xAA`, marker `0xB4`, the command id in byte 2, the cached device id in
bytes 15/16, checksum byte 17 = sum of bytes 2..16 mod 256 and trailer
`0xAB`; `Set_Param` frames carry `(1, p)` in bytes 3/4, query frames
(`Get_Param`, data query, firmware query, the `Try_Connect` probe) leave
bytes 3..14 zero, and `Set_New_Devid` frames leave bytes 3/4 zero and
carry the new id in bytes 13/14. -/
theorem C4_command_frame_layout (w : World) (s : SDSState)
    (rIdx wIdx c p n0 n1 fd : ℕ) :
    (∀ f ∈ (Get_Param w s rIdx wIdx c).1.writes,
      commandFrameOK f c s.dev_id0 s.dev_id1 ∧ queryActionBytes f ∧
        reservedBytesZero f) ∧
    (∀ f ∈ (Set_Param w s rIdx wIdx c p).writes,
      commandFrameOK f c s.dev_id0 s.dev_id1 ∧ f.getD 3 0 = 1 ∧
        f.getD 4 0 = p ∧ reservedBytesZero f) ∧
    (∀ f ∈ (Report_Data w s rIdx wIdx REPORT_QUERY).1.writes,
      commandFrameOK f SDS011_QDATA s.dev_id0 s.dev_id1 ∧
        queryActionBytes f ∧ reservedBytesZero f) ∧
    (∀ f ∈ (Get_Firmware_Version w s rIdx wIdx).1.writes,
      commandFrameOK f SDS011_FWVER s.dev_id0 s.dev_id1 ∧
        queryActionBytes f ∧ reservedBytesZero f) ∧
    (∀ f ∈ (Set_New_Devid w s rIdx wIdx n0 n1).writes,
      commandFrameOK f SDS011_DEVID s.dev_id0 s.dev_id1 ∧
        queryActionBytes f ∧ f.getD 13 0 = n0 ∧ f.getD 14 0 = n1) ∧
    (∀ (res : RunResult) (m : ℕ),
      Try_Connect w s rIdx wIdx fd = some (res, m) →
      ∀ f ∈ res.writes,
        commandFrameOK f SDS011_FWVER s.dev_id0 s.dev_id1 ∧
          queryActionBytes f ∧ reservedBytesZero f) := by
  refine ⟨?_, ?_, ?_, ?_, ?_, ?_⟩
  · intro f hf
    rw [Get_Param_writes w s rIdx wIdx c f hf]
    exact stamped_query_frame s c
  · intro f hf
    rw [Set_Param_writes w s rIdx wIdx c p f hf]
    exact stamped_set_frame s c p
  · intro f hf
    rw [Report_Data_writes w s rIdx wIdx f hf]
    exact stamped_query_frame s SDS011_QDATA
  · intro f hf
    rw [Get_Firmware_Version_writes w s rIdx wIdx f hf]
    exact stamped_query_frame s SDS011_FWVER
  · intro f hf
    rw [Set_New_Devid_writes w s rIdx wIdx n0 n1 f hf]
    exact stamped_devid_frame s n0 n1
  · intro res m hres f hf
    rw [Try_Connect_writes w s rIdx wIdx fd res m hres f hf]
    exact stamped_query_frame { s with fd := fd } SDS011_FWVER

/-- Witness for C4 (amended) at a concrete input: the firmware query
written by `Get_Firmware_Version` on a connected session has the full
documented layout. -/
theorem C4_witness :
    (Get_Firmware_Version worldConf connState 0 0).1.writes =
      [[170, 180, 7, 0, 0, 0, 0, 0, 0, 0, 0, 0, 0, 0, 0, 255, 255, 5, 171]] ∧
    commandFrameOK
      [170, 180, 7, 0, 0, 0, 0, 0, 0, 0, 0, 0, 0, 0, 0, 255, 255, 5, 171]
      SDS011_FWVER connState.dev_id0 connState.dev_id1 := by
  have hsend := send_sds_ready worldConf
    (prepare_packet connState SDS011_FWVER) 0 0 (by decide) rfl rfl
  have hw : (Get_Firmware_Version worldConf connState 0 0).1.writes =
      [[170, 180, 7, 0, 0, 0, 0, 0, 0, 0, 0, 0, 0, 0, 0, 255, 255, 5, 171]] := by
    simp only [Get_Firmware_Version, hsend]
    rw [if_neg (by decide : ¬ (SDS011_OK : ℕ) = SDS011_ERROR)]
    split_ifs <;> decide
  refine ⟨hw, ?_⟩
  exact ((C4_command_frame_layout worldConf connState 0 0 7 0 0 0 3).2.2.2.1
    _ (by rw [hw]; exact List.mem_singleton.2 rfl)).1

/-- Collapsing the identity `match` wrapper around the recursive call of
`tryConnectLoop`. -/
theorem matchOptId (o : Option (RunResult × ℕ)) :
    (match o with
     | none => none
     | some (res, m) => some (res, m)) = o := by
  rcases o with _ | ⟨res, m⟩ <;> rfl

/-- One non-trigger poll iteration (`i ≠ 2`) of the `Try_Connect` loop
against the never-answering transport. -/
theorem tryConnectLoop_step_poll (fuel : ℕ) (s : SDSState)
    (r wi i j n : ℕ) (hp : s.pending = true) (hfd : s.fd ≠ 0xff)
    (hi : i ≠ 2) :
    tryConnectLoop worldNone (fuel + 1) s r wi i j n =
      tryConnectLoop worldNone fuel s (r + 5) wi (i + 1) j n := by
  have hread := read_sds_worldNone s r hfd
  simp only [tryConnectLoop]
  rw [if_neg (by simp [hp]), hread]
  rw [if_neg (by simp [hi])]
  exact matchOptId _

/-- The trigger iteration (`i = 2`, `j ≤ 10`): resend, then continue with
`i = 0`, `j + 1`, one more resend counted, and the written probe
prepended. -/
theorem tryConnectLoop_step_resend (fuel : ℕ) (s : SDSState)
    (r wi j n : ℕ) (hp : s.pending = true) (hfd : s.fd ≠ 0xff)
    (hj : ¬ j > 10) :
    tryConnectLoop worldNone (fuel + 1) s r wi 2 j n =
      (tryConnectLoop worldNone fuel
          { s with packet := stampChecksum s.packet, pending := true }
          (r + 5) (wi + 1) 0 (j + 1) (n + 1)).map
        (fun x => ({ x.1 with
          writes := stampChecksum s.packet :: x.1.writes }, x.2)) := by
  have hread := read_sds_worldNone s r hfd
  have hsend := send_sds_ready worldNone { s with pending := false }
    (r + 5) wi hfd rfl rfl
  simp only [tryConnectLoop]
  rw [if_neg (by simp [hp]), hread]
  rw [if_pos ⟨trivial, hp⟩, hsend]
  rw [if_neg (by decide : ¬ (SDS011_OK : ℕ) = SDS011_ERROR), if_neg hj]
  cases hrec : tryConnectLoop worldNone fuel
      { s with packet := stampChecksum s.packet, pending := true }
      (r + 5) (wi + 1) 0 (j + 1) (n + 1) with
  | none => rfl
  | some pr => rcases pr with ⟨res, m⟩; rfl

/-- The trigger iteration with the resend budget exhausted (`j > 10`):
the 12th resend is still written, then `SDS011_ERROR` is returned with
the descriptor reset. -/
theorem tryConnectLoop_step_term (fuel : ℕ) (s : SDSState)
    (r wi j n : ℕ) (hp : s.pending = true) (hfd : s.fd ≠ 0xff)
    (hj : j > 10) :
    tryConnectLoop worldNone (fuel + 1) s r wi 2 j n =
      some (⟨SDS011_ERROR,
        { s with packet := stampChecksum s.packet
                 pending := true
                 fd := 0xff },
        r + 5, wi + 1, [stampChecksum s.packet]⟩, n + 1) := by
  have hread := read_sds_worldNone s r hfd
  have hsend := send_sds_ready worldNone { s with pending := false }
    (r + 5) wi hfd rfl rfl
  simp only [tryConnectLoop]
  rw [if_neg (by simp [hp]), hread]
  rw [if_pos ⟨trivial, hp⟩, hsend]
  rw [if_neg (by decide : ¬ (SDS011_OK : ℕ) = SDS011_ERROR), if_pos hj]

/-- Closed form of the `Try_Connect` loop against the never-answering
transport: starting with `i = 0` and `j + k = 11`, it performs `k + 1`
further resend cycles of 3 polls each (15 read attempts per cycle) and
returns `SDS011_ERROR` with the descriptor reset. -/
theorem tryConnectLoop_worldNone_runs (k : ℕ) :
    k ≤ 11 →
    ∀ (extra : ℕ) (s : SDSState) (r wi j n : ℕ), j + k = 11 →
      s.pending = true → s.fd ≠ 0xff →
      stampChecksum (stampChecksum s.packet) = stampChecksum s.packet →
      tryConnectLoop worldNone (3 * (k + 1) + extra) s r wi 0 j n =
        some (⟨SDS011_ERROR,
          { s with packet := stampChecksum s.packet
                   pending := true
                   fd := 0xff },
          r + 15 * (k + 1), wi + (k + 1),
          List.replicate (k + 1) (stampChecksum s.packet)⟩, n + (k + 1)) := by
  induction k with
  | zero =>
    intro _ extra s r wi j n hj hp hfd _
    have hj11 : j = 11 := by omega
    subst hj11
    have e1 : 3 * (0 + 1) + extra = ((extra + 1) + 1) + 1 := by ring
    rw [e1]
    rw [tryConnectLoop_step_poll (extra + 1 + 1) s r wi 0 11 n hp hfd
      (by decide)]
    rw [tryConnectLoop_step_poll (extra + 1) s (r + 5) wi 1 11 n hp hfd
      (by decide)]
    rw [tryConnectLoop_step_term extra s (r + 5 + 5) wi 11 n hp hfd
      (by decide)]
    rw [show r + 5 + 5 + 5 = r + 15 * (0 + 1) by ring]
    rfl
  | succ k ih =>
    intro hk extra s r wi j n hj hp hfd hst
    have hk' : k ≤ 11 := by omega
    have e1 : 3 * (k + 1 + 1) + extra = (((3 * (k + 1) + extra) + 1) + 1) + 1 :=
      by ring
    rw [e1]
    rw [tryConnectLoop_step_poll ((3 * (k + 1) + extra) + 1 + 1) s r wi 0 j n
      hp hfd (by decide)]
    rw [tryConnectLoop_step_poll ((3 * (k + 1) + extra) + 1) s (r + 5) wi 1 j n
      hp hfd (by decide)]
    rw [tryConnectLoop_step_resend (3 * (k + 1) + extra) s (r + 5 + 5) wi j n
      hp hfd (by omega)]
    have hst3 : stampChecksum (stampChecksum
          (({ s with packet := stampChecksum s.packet
                     pending := true } : SDSState).packet)) =
        stampChecksum (({ s with packet := stampChecksum s.packet
                                 pending := true } : SDSState).packet) := by
      show stampChecksum (stampChecksum (stampChecksum s.packet)) =
        stampChecksum (stampChecksum s.packet)
      rw [hst]
      exact hst
    rw [ih hk' extra
      ({ s with packet := stampChecksum s.packet, pending := true })
      (r + 5 + 5 + 5) (wi + 1) (j + 1) (n + 1) (by omega) rfl hfd hst3]
    simp only [Option.map_some']
    rw [show stampChecksum (({ s with packet := stampChecksum s.packet
                                      pending := true } : SDSState).packet) =
      stampChecksum s.packet from hst]
    rw [show r + 5 + 5 + 5 + 15 * (k + 1) = r + 15 * (k + 1 + 1) by ring,
      show wi + 1 + (k + 1) = wi + (k + 1 + 1) by ring,
      show n + 1 + (k + 1) = n + (k + 1 + 1) by ring]
    rfl

/-- The stamped firmware probe `Try_Connect` sends from a fresh session:
command id 7, cached device id `0xff 0xff`, checksum
`(7 + 255 + 255) % 256 = 5`. -/
def probeFrame : List ℕ :=
  [170, 180, 7, 0, 0, 0, 0, 0, 0, 0, 0, 0, 0, 0, 0, 255, 255, 5, 171]

/-- The session state `Try_Connect` leaves behind after the resend budget
is exhausted against a dead transport. -/
def tcFinalState : SDSState :=
  { packet := probeFrame
    pending := true
    dev_id0 := 255
    dev_id1 := 255
    humidity := 0
    fd := 255
    data := ⟨0, 0, 0, 0, 0, 0, 0, 0, 0, 0, 0⟩ }

/-- Definitional unfolding of `Try_Connect` (stated over variables so
that rewriting with it never forces evaluation of the retry loop). -/
theorem Try_Connect_unfold (w : World) (s : SDSState) (r wi fd : ℕ) :
    Try_Connect w s r wi fd =
      if (send_sds w (prepare_packet { s with fd := fd } SDS011_FWVER) r
          wi).status = SDS011_ERROR then
        some (send_sds w (prepare_packet { s with fd := fd } SDS011_FWVER)
          r wi, 0)
      else
        match tryConnectLoop w 100
            (send_sds w (prepare_packet { s with fd := fd } SDS011_FWVER)
              r wi).state
            (send_sds w (prepare_packet { s with fd := fd } SDS011_FWVER)
              r wi).rIdx
            (send_sds w (prepare_packet { s with fd := fd } SDS011_FWVER)
              r wi).wIdx 0 0 0 with
        | none => none
        | some (res, m) =>
          some ({ res with writes := (send_sds w
            (prepare_packet { s with fd := fd } SDS011_FWVER) r
            wi).writes ++ res.writes }, m) := rfl

set_option maxHeartbeats 1600000 in
/-- Full evaluation of `Try_Connect` from a fresh session against the
never-answering transport: 13 written packets (probe + 12 resends),
36 polls (180 read attempts), `SDS011_ERROR`, descriptor reset. -/
theorem Try_Connect_worldNone_eq :
    Try_Connect worldNone initState 0 0 3 =
      some (⟨SDS011_ERROR, tcFinalState, 180, 13,
        List.replicate 13 probeFrame⟩, 12) := by
  have hsend := send_sds_ready worldNone
    (prepare_packet { initState with fd := 3 } SDS011_FWVER) 0 0
    (by decide) rfl rfl
  have hloop := tryConnectLoop_worldNone_runs 11 (by norm_num) 64
    ({ prepare_packet { initState with fd := 3 } SDS011_FWVER with
        packet := stampChecksum
          (prepare_packet { initState with fd := 3 } SDS011_FWVER).packet
        pending := true })
    0 (0 + 1) 0 0 (by norm_num) rfl (by decide) (by decide)
  rw [Try_Connect_unfold, hsend]
  dsimp only
  rw [if_neg (by decide : ¬ (SDS011_OK : ℕ) = SDS011_ERROR)]
  rw [show (100 : ℕ) = 3 * (11 + 1) + 64 by norm_num]
  rw [hloop]
  rfl

/-- Counterexample for C8 as stated: against a transport that never
answers, `Try_Connect` returns `SDS011_ERROR` after 12 resends — the
check `j++ > 10` fires during the 12th resend — not after 10. -/
theorem C8_counterexample :
    (Try_Connect worldNone initState 0 0 3).map (fun x => (x.1.status, x.2)) =
      some (SDS011_ERROR, 12) ∧ (12 : ℕ) ≠ 10 := by
  refine ⟨?_, by decide⟩
  rw [Try_Connect_worldNone_eq]
  rfl

set_option maxHeartbeats 1600000 in
/-- C8 (amended): against a never-answering transport `Try_Connect`
resends the probe on every third unanswered poll (`i++ == 2`) and
returns `SDS011_ERROR` after 12 resends — 13 packets written in total,
36 polls (180 read attempts), descriptor reset to the sentinel — never
looping unboundedly; a transport answering the first poll yields
`SDS011_OK` with zero resends. -/
theorem C8_retry_policy :
    Try_Connect worldNone initState 0 0 3 =
      some (⟨SDS011_ERROR, tcFinalState, 180, 13,
        List.replicate 13 probeFrame⟩, 12) ∧
    (Try_Connect worldConf initState 0 0 3).map (fun x => (x.1.status, x.2)) =
      some (SDS011_OK, 0) := by
  refine ⟨Try_Connect_worldNone_eq, by decide⟩

end SDS011
